import Mathlib

/-!
Verification of the session-backed JWT authentication mechanism and the
route-handler authorization logic of the `do-app-starter` REST backend.

The definitions below are a shallow embedding of the JavaScript source:

* `src/middleware/auth.js` — token generation (`generateToken`), token
  verification (`verifyToken`), the `authenticate` and `optionalAuth`
  middleware, and the session-table operations `createSession`,
  `revokeSession`, `cleanupExpiredSessions`.
* the auth routes (`/api/auth/signup|login|logout|refresh`) and the item
  routes (`/api/items...`) of the route files, modelled by `issueToken`,
  `refreshHandler`, `getItems`, `getItemById`, `putItem`, `deleteItem`.
* `src/routes/users.js` — `changePassword` (PUT /api/users/me/password)
  and `deleteAccount` (DELETE /api/users/me).

Modelling conventions: machine time (JS `Date.now()` and SQL `NOW()`) is a
`Nat` in milliseconds; the relational store is a `DB` record of lists of
rows; a JWT is a record carrying its payload, its embedded expiry and the
secret it was signed with, so that signature verification is equality of
secrets; bcrypt is an external collaborator passed in as a comparison
function. All definitions are executable.
-/

namespace DoApp

/-- Fixed token/session validity window: 7 days in milliseconds
(`JWT_EXPIRES_IN = '7d'` and `createSession`'s `expiresInDays = 7`). -/
def sevenDaysMs : Nat := 604800000

/-- The payload embedded in a token by `generateToken`:
`{ id: user.id, email: user.email, jti: ... }`. -/
structure Claims where
  id : Nat
  email : String
  jti : String
  deriving DecidableEq, Repr

/-- A signed token. `secret` records which key the token was signed with
(signature verification succeeds exactly when it equals the server's key),
`exp` is the embedded expiry instant. -/
structure Token where
  claims : Claims
  exp : Nat
  secret : String
  deriving DecidableEq, Repr

/-- A row of the `users` table. -/
structure UserRow where
  id : Nat
  email : String
  password_hash : String
  name : Option String
  avatar_url : Option String
  created_at : Nat
  deriving DecidableEq, Repr

/-- The columns of a user that `authenticate` attaches to the request
(`SELECT id, email, name, avatar_url, created_at FROM users`). -/
structure PubUser where
  id : Nat
  email : String
  name : Option String
  avatar_url : Option String
  created_at : Nat
  deriving DecidableEq, Repr

/-- Projection of a `users` row to the attached public columns. -/
def pubOfUser (u : UserRow) : PubUser :=
  { id := u.id, email := u.email, name := u.name, avatar_url := u.avatar_url
    created_at := u.created_at }

/-- A row of the `sessions` table. -/
structure SessionRow where
  user_id : Nat
  token_jti : String
  expires_at : Nat
  deriving DecidableEq, Repr

/-- A row of the `items` table. `metadata` is the opaque JSONB document. -/
structure Item where
  id : Nat
  name : String
  description : Option String
  user_id : Option Nat
  metadata : String
  created_at : Nat
  updated_at : Nat
  deriving DecidableEq, Repr

/-- A row of the `uploads` table. -/
structure UploadRow where
  user_id : Nat
  item_id : Nat
  filename : String
  file_url : String
  deriving DecidableEq, Repr

/-- The persistent store: the four tables the routes touch. -/
structure DB where
  users : List UserRow
  sessions : List SessionRow
  items : List Item
  uploads : List UploadRow
  deriving DecidableEq, Repr

/-- The `jti` built by `generateToken`: the JS template literal
`${user.id}-${Date.now()}`, i.e. decimal user id, a dash, decimal
millisecond timestamp. -/
def genJti (uid ms : Nat) : String :=
  toString uid ++ "-" ++ toString ms

/-- `generateToken(user)` at instant `now`: signs `{id, email, jti}` with
the server secret, valid for seven days. -/
def generateToken (secret : String) (uid : Nat) (email : String) (now : Nat) : Token :=
  { claims := { id := uid, email := email, jti := genJti uid now }
    exp := now + sevenDaysMs
    secret := secret }

/-- `verifyToken(token)`: returns the decoded payload when the signature
matches the server secret and the embedded expiry has not passed, else
`none` (the JS function returns `null` on any verification error). -/
def verifyToken (secret : String) (now : Nat) (t : Token) : Option Claims :=
  if t.secret == secret && decide (now < t.exp) then some t.claims else none

/-- The material carried by the `Authorization` header of a request: no
header at all, a header that does not start with `Bearer `, or a bearer
token. A syntactically unparseable bearer string behaves exactly like a
token signed with a wrong key (both make `verifyToken` return `none`), so
it is represented by a `bearer` value whose `secret` differs. -/
inductive BearerInput where
  | noHeader
  | malformed
  | bearer (t : Token)
  deriving DecidableEq, Repr

/-- `SELECT id FROM sessions WHERE token_jti = $1 AND expires_at > NOW()`
returned at least one row. -/
def hasLiveSession (db : DB) (now : Nat) (jti : String) : Bool :=
  db.sessions.any (fun s => s.token_jti == jti && decide (now < s.expires_at))

/-- `SELECT ... FROM users WHERE id = $1` (first matching row). -/
def lookupUser (db : DB) (uid : Nat) : Option UserRow :=
  db.users.find? (fun u => u.id == uid)

/-- Outcome of the `authenticate` middleware: a 401 JSON envelope with an
error code, or the attached `req.user` and `req.token`. -/
inductive AuthResult where
  | failure (status : Nat) (code : String)
  | success (user : PubUser) (claims : Claims)
  deriving DecidableEq, Repr

/-- The `authenticate` middleware: header check, signature/expiry check,
live-session check, user lookup — in the source's order. -/
def authenticate (secret : String) (now : Nat) (db : DB) (inp : BearerInput) : AuthResult :=
  match inp with
  | .noHeader => .failure 401 "NO_TOKEN"
  | .malformed => .failure 401 "NO_TOKEN"
  | .bearer t =>
    match verifyToken secret now t with
    | none => .failure 401 "INVALID_TOKEN"
    | some c =>
      if hasLiveSession db now c.jti then
        match lookupUser db c.id with
        | some u => .success (pubOfUser u) c
        | none => .failure 401 "USER_NOT_FOUND"
      else .failure 401 "SESSION_EXPIRED"

/-- The `optionalAuth` middleware: attaches `req.user` when the token
decodes and the user exists; note that, unlike `authenticate`, it performs
no `sessions` lookup. It never rejects the request. -/
def optionalAuth (secret : String) (now : Nat) (db : DB) (inp : BearerInput) :
    Option (PubUser × Claims) :=
  match inp with
  | .bearer t =>
    match verifyToken secret now t with
    | some c =>
      match lookupUser db c.id with
      | some u => some (pubOfUser u, c)
      | none => none
    | none => none
  | _ => none

/-- `createSession(userId, tokenJti)`: inserts a `sessions` row expiring
seven days from `now`. -/
def createSession (db : DB) (userId : Nat) (tokenJti : String) (now : Nat) : DB :=
  { db with sessions :=
      db.sessions ++ [{ user_id := userId, token_jti := tokenJti
                        expires_at := now + sevenDaysMs }] }

/-- `revokeSession(tokenJti)`: `DELETE FROM sessions WHERE token_jti = $1`. -/
def revokeSession (db : DB) (tokenJti : String) : DB :=
  { db with sessions := db.sessions.filter (fun s => !(s.token_jti == tokenJti)) }

/-- `cleanupExpiredSessions()`: `DELETE FROM sessions WHERE expires_at < NOW()`. -/
def cleanupExpiredSessions (db : DB) (now : Nat) : DB :=
  { db with sessions := db.sessions.filter (fun s => !(decide (s.expires_at < now))) }

/-- The issuance sequence shared by signup, login and refresh:
`generateToken` followed by `createSession` on the decoded `jti`. Returns
the token handed to the caller and the updated store. -/
def issueToken (secret : String) (db : DB) (uid : Nat) (email : String) (now : Nat) :
    Token × DB :=
  let t := generateToken secret uid email now
  (t, createSession db uid t.claims.jti now)

/-- The body of `POST /api/auth/refresh` after `authenticate` has attached
`req.user` and `req.token`: revoke the old session, then issue a
replacement token for the same user. -/
def refreshHandler (secret : String) (db : DB) (user : PubUser) (oldJti : String)
    (now : Nat) : Token × DB :=
  let db1 := revokeSession db oldJti
  issueToken secret db1 user.id user.email now

/-! ### Basic facts about the session table operations -/

theorem hasLiveSession_revoke (db : DB) (jti : String) (now : Nat) :
    hasLiveSession (revokeSession db jti) now jti = false := by
  simp only [hasLiveSession, revokeSession]
  rw [Bool.eq_false_iff]
  intro h
  rw [List.any_eq_true] at h
  obtain ⟨s, hmem, hp⟩ := h
  rw [List.mem_filter] at hmem
  obtain ⟨-, hne⟩ := hmem
  simp only [Bool.not_eq_true', beq_eq_false_iff_ne, ne_eq] at hne
  simp only [Bool.and_eq_true, beq_iff_eq] at hp
  exact hne hp.1

theorem hasLiveSession_createSession_self (db : DB) (uid : Nat) (jti : String) (now : Nat) :
    hasLiveSession (createSession db uid jti now) now jti = true := by
  simp [hasLiveSession, createSession, sevenDaysMs]

/-! ### C1 and C2 -/

/-- C1: for every token whose signature matches the server secret and whose
embedded expiry has not passed, after `revokeSession` on that token's `jti`
the `authenticate` middleware rejects that same token with a 401
`SESSION_EXPIRED` envelope. -/
theorem revoke_then_authenticate_session_expired
    (secret : String) (db : DB) (t : Token) (now : Nat)
    (hsig : t.secret = secret) (hexp : now < t.exp) :
    authenticate secret now (revokeSession db t.claims.jti) (.bearer t) =
      .failure 401 "SESSION_EXPIRED" := by
  have hver : verifyToken secret now t = some t.claims := by
    simp [verifyToken, hsig, hexp]
  simp [authenticate, hver, hasLiveSession_revoke]

/-- C1 witness: a concrete token, revoked, is rejected with SESSION_EXPIRED. -/
theorem revoke_then_authenticate_session_expired_witness :
    authenticate "s" 5
      (revokeSession
        { users := [], sessions := [⟨1, genJti 1 5, 5 + sevenDaysMs⟩], items := [],
          uploads := [] }
        (generateToken "s" 1 "a@b.com" 5).claims.jti)
      (.bearer (generateToken "s" 1 "a@b.com" 5)) = .failure 401 "SESSION_EXPIRED" :=
  revoke_then_authenticate_session_expired "s" _ _ 5 rfl (by decide)

/-- C2: immediately after an issuance (`generateToken` then `createSession`,
as performed by signup, login and refresh) for a user present in the store,
`authenticate` on the returned token succeeds and attaches exactly the
public projection of that user's row — in particular a user id equal to the
issued user's id. -/
theorem issue_then_authenticate_success
    (secret email : String) (db : DB) (uid now : Nat) (u : UserRow)
    (hu : lookupUser db uid = some u) :
    authenticate secret now (issueToken secret db uid email now).2
        (.bearer (issueToken secret db uid email now).1) =
      .success (pubOfUser u) (issueToken secret db uid email now).1.claims ∧
    (pubOfUser u).id = uid := by
  have hid : u.id = uid := by
    have := List.find?_some hu
    simpa using this
  have hver : verifyToken secret now (issueToken secret db uid email now).1 =
      some (issueToken secret db uid email now).1.claims := by
    simp [verifyToken, issueToken, generateToken, sevenDaysMs]
  have hlive : hasLiveSession (issueToken secret db uid email now).2 now
      (issueToken secret db uid email now).1.claims.jti = true := by
    simpa [issueToken] using
      hasLiveSession_createSession_self db uid (generateToken secret uid email now).claims.jti now
  have hlook : lookupUser (issueToken secret db uid email now).2
      (issueToken secret db uid email now).1.claims.id = some u := by
    simpa [issueToken, createSession, generateToken, lookupUser] using hu
  refine ⟨?_, by simpa [pubOfUser] using hid⟩
  simp [authenticate, hver, hlive, hlook]

/-- C2 witness: issuing a token to a concrete stored user and validating it
at the same instant succeeds with that user's id. -/
theorem issue_then_authenticate_success_witness :
    authenticate "s" 5
        (issueToken "s"
          { users := [⟨1, "a@b.com", "h", none, none, 0⟩], sessions := [], items := [],
            uploads := [] } 1 "a@b.com" 5).2
        (.bearer (issueToken "s"
          { users := [⟨1, "a@b.com", "h", none, none, 0⟩], sessions := [], items := [],
            uploads := [] } 1 "a@b.com" 5).1) =
      .success (pubOfUser ⟨1, "a@b.com", "h", none, none, 0⟩)
        (issueToken "s"
          { users := [⟨1, "a@b.com", "h", none, none, 0⟩], sessions := [], items := [],
            uploads := [] } 1 "a@b.com" 5).1.claims ∧
    (pubOfUser ⟨1, "a@b.com", "h", none, none, 0⟩).id = 1 :=
  issue_then_authenticate_success "s" "a@b.com" _ 1 5 _ rfl

/-! ### Concrete fixtures used by witnesses and counterexamples -/

/-- A concrete stored user. -/
def exUser : UserRow := ⟨1, "a@b.com", "h", none, none, 0⟩

/-- A store holding only `exUser` and no sessions. -/
def exDB : DB := { users := [exUser], sessions := [], items := [], uploads := [] }

/-- A concrete token issued to `exUser` at instant 5. -/
def exTok : Token := generateToken "s" 1 "a@b.com" 5

/-- The store as it stands right after `exTok` was issued: `exUser`'s row
plus the matching live session row. -/
def exDBr : DB :=
  { users := [exUser], sessions := [⟨1, genJti 1 5, 5 + sevenDaysMs⟩], items := [],
    uploads := [] }

/-! ### C3 -/

/-- C3 counterexample: a store with no session row for a cryptographically
valid token. `authenticate` rejects the token with SESSION_EXPIRED, yet
`optionalAuth` attaches the user — so `optionalAuth` does not attach a user
exactly when `authenticate` would succeed. -/
theorem optionalAuth_attaches_despite_session_expired :
    authenticate "s" 5 exDB (.bearer exTok) = .failure 401 "SESSION_EXPIRED" ∧
    optionalAuth "s" 5 exDB (.bearer exTok) = some (pubOfUser exUser, exTok.claims) :=
  ⟨rfl, rfl⟩

/-- C3 (amended): `optionalAuth` never rejects a request; it attaches
whatever identity `authenticate` would attach whenever `authenticate`
succeeds, but it omits the live-session check: it attaches a user exactly
when the token's signature and embedded expiry verify and the referenced
user exists, regardless of the `sessions` table. -/
theorem optionalAuth_characterization (secret : String) (now : Nat) (db : DB)
    (inp : BearerInput) :
    (∀ u c, authenticate secret now db inp = .success u c →
      optionalAuth secret now db inp = some (u, c)) ∧
    (∀ p, optionalAuth secret now db inp = some p ↔
      ∃ t c u, inp = .bearer t ∧ verifyToken secret now t = some c ∧
        lookupUser db c.id = some u ∧ p = (pubOfUser u, c)) := by
  constructor
  · intro u c h
    cases inp with
    | noHeader => exact absurd h (by simp [authenticate])
    | malformed => exact absurd h (by simp [authenticate])
    | bearer t =>
      simp only [authenticate] at h
      simp only [optionalAuth]
      split at h
      next hv => exact absurd h (by simp)
      next c' hv =>
        split at h
        · split at h
          next u' hl =>
            simp only [AuthResult.success.injEq] at h
            obtain ⟨h1, h2⟩ := h
            subst h1
            subst h2
            simp [hv, hl]
          next hl => exact absurd h (by simp)
        · exact absurd h (by simp)
  · intro p
    cases inp with
    | noHeader => simp [optionalAuth]
    | malformed => simp [optionalAuth]
    | bearer t =>
      simp only [optionalAuth]
      constructor
      · intro h
        split at h
        next c' hv =>
          split at h
          next u' hl =>
            injection h with hp
            exact ⟨t, c', u', rfl, hv, hl, hp.symm⟩
          next hl => exact absurd h (by simp)
        next hv => exact absurd h (by simp)
      · rintro ⟨t', c, u, ht, hv', hl', hp⟩
        injection ht with ht'
        subst ht'
        simp [hv', hl', hp]

/-! ### C4 -/

theorem hasLiveSession_createSession_other (db : DB) (uid : Nat) (jNew : String)
    (now now2 : Nat) (j : String) (hne : jNew ≠ j) :
    hasLiveSession (createSession db uid jNew now) now2 j = hasLiveSession db now2 j := by
  simp [hasLiveSession, createSession, List.any_append, hne]

/-- C4 counterexample: a refresh performed in the same millisecond as the
old token's issuance regenerates the very same `jti`, so after the refresh
the old token still validates successfully — "Validate on the old token
fails" does not hold for every authenticated refresh. -/
theorem refresh_same_instant_old_token_still_validates :
    authenticate "s" 5 (refreshHandler "s" exDBr (pubOfUser exUser) exTok.claims.jti 5).2
        (.bearer exTok) = .success (pubOfUser exUser) exTok.claims :=
  rfl

/-- C4 (amended): provided the refresh generates a `jti` different from the
old token's (which holds whenever the refresh happens in a different
millisecond than the old issuance), the refresh is non-reentrant: the old
token is rejected with SESSION_EXPIRED, the returned token validates, the
old session row is already gone from the intermediate store produced by
`revokeSession` (before the new row is inserted), and no row for the old
`jti` exists afterwards. -/
theorem refresh_nonreentrant
    (secret : String) (db : DB) (user : PubUser) (told : Token) (now now2 : Nat)
    (ur : UserRow)
    (hsig : told.secret = secret) (hexp : now2 < told.exp)
    (hjti : genJti user.id now ≠ told.claims.jti)
    (hlive : now2 < now + sevenDaysMs)
    (hu : lookupUser db user.id = some ur) :
    authenticate secret now2 (refreshHandler secret db user told.claims.jti now).2
        (.bearer told) = .failure 401 "SESSION_EXPIRED" ∧
    authenticate secret now2 (refreshHandler secret db user told.claims.jti now).2
        (.bearer (refreshHandler secret db user told.claims.jti now).1) =
      .success (pubOfUser ur) (refreshHandler secret db user told.claims.jti now).1.claims ∧
    (∀ s ∈ (revokeSession db told.claims.jti).sessions, s.token_jti ≠ told.claims.jti) ∧
    (∀ s ∈ (refreshHandler secret db user told.claims.jti now).2.sessions,
        s.token_jti ≠ told.claims.jti) := by
  have hver : verifyToken secret now2 told = some told.claims := by
    simp [verifyToken, hsig, hexp]
  refine ⟨?_, ?_, ?_, ?_⟩
  · have hdead : hasLiveSession (refreshHandler secret db user told.claims.jti now).2 now2
        told.claims.jti = false := by
      simp only [refreshHandler, issueToken, generateToken]
      rw [hasLiveSession_createSession_other _ _ _ _ _ _ hjti]
      exact hasLiveSession_revoke db told.claims.jti now2
    simp [authenticate, hver, hdead]
  · have hver2 : verifyToken secret now2 (refreshHandler secret db user told.claims.jti now).1 =
        some (refreshHandler secret db user told.claims.jti now).1.claims := by
      simp [verifyToken, refreshHandler, issueToken, generateToken, hlive]
    have hlive2 : hasLiveSession (refreshHandler secret db user told.claims.jti now).2 now2
        (refreshHandler secret db user told.claims.jti now).1.claims.jti = true := by
      simp [refreshHandler, issueToken, generateToken, hasLiveSession, createSession,
        List.any_append, hlive]
    have hlook : lookupUser (refreshHandler secret db user told.claims.jti now).2
        (refreshHandler secret db user told.claims.jti now).1.claims.id = some ur := by
      simpa [refreshHandler, issueToken, generateToken, createSession, revokeSession,
        lookupUser] using hu
    simp [authenticate, hver2, hlive2, hlook]
  · intro s hs
    rw [revokeSession] at hs
    simp only [List.mem_filter, Bool.not_eq_true', beq_eq_false_iff_ne, ne_eq] at hs
    exact hs.2
  · intro s hs
    simp only [refreshHandler, issueToken, generateToken, createSession, revokeSession,
      List.mem_append, List.mem_filter, List.mem_singleton, Bool.not_eq_true',
      beq_eq_false_iff_ne, ne_eq] at hs
    rcases hs with ⟨-, hne⟩ | hrow
    · exact hne
    · rw [hrow]
      exact hjti

/-- C4 witness: a concrete refresh one millisecond after issuance rejects
the old token with SESSION_EXPIRED. -/
theorem refresh_nonreentrant_witness :
    authenticate "s" 6 (refreshHandler "s" exDBr (pubOfUser exUser) exTok.claims.jti 6).2
        (.bearer exTok) = .failure 401 "SESSION_EXPIRED" :=
  (refresh_nonreentrant "s" exDBr (pubOfUser exUser) exTok 6 6 exUser rfl (by decide)
    (by decide) (by decide) rfl).1

/-! ### C5 -/

/-- A session row sitting exactly at the sweep instant. -/
def exSesBoundary : SessionRow := ⟨1, "x", 100⟩

/-- C5 counterexample: the sweep's SQL predicate is the strict
`expires_at < NOW()`, so a row with `expires_at` equal to `now` — which is
not in the future — survives the sweep, contradicting "every Session row
with expires_at ≤ now is removed". -/
theorem cleanup_keeps_boundary_row :
    (cleanupExpiredSessions
        { users := [], sessions := [exSesBoundary], items := [], uploads := [] }
        100).sessions = [exSesBoundary] ∧
    exSesBoundary.expires_at ≤ 100 :=
  ⟨rfl, by decide⟩

/-- C5 (amended): `cleanupExpiredSessions` deletes exactly the session rows
with `expires_at < now`: a row survives the sweep iff it was present and
`now ≤ expires_at`. In particular no row with `expires_at > now` is ever
removed. -/
theorem cleanup_characterization (db : DB) (now : Nat) (s : SessionRow) :
    s ∈ (cleanupExpiredSessions db now).sessions ↔ s ∈ db.sessions ∧ now ≤ s.expires_at := by
  simp [cleanupExpiredSessions, List.mem_filter, Bool.not_eq_true',
    decide_eq_false_iff_not, Nat.not_lt]

/-! ### Item routes -/

/-- The columns returned by the unauthenticated item list
(`SELECT id, name, description, created_at FROM items`). -/
structure ItemView where
  id : Nat
  name : String
  description : Option String
  created_at : Nat
  deriving DecidableEq, Repr

/-- Projection of an `items` row to the public list columns. -/
def itemView (it : Item) : ItemView :=
  ⟨it.id, it.name, it.description, it.created_at⟩

/-- Insert an item into a list already sorted by `created_at` descending. -/
def insertItemDesc (it : Item) : List Item → List Item
  | [] => [it]
  | x :: xs =>
    if x.created_at ≤ it.created_at then it :: x :: xs else x :: insertItemDesc it xs

/-- `ORDER BY created_at DESC` (insertion sort). -/
def sortItemsDesc (l : List Item) : List Item := l.foldr insertItemDesc []

/-- Response of `GET /api/items`: the caller's own full rows when an
identity was attached, otherwise the public projection. -/
inductive ItemsResult where
  | userItems (items : List Item)
  | publicItems (views : List ItemView)
  deriving DecidableEq, Repr

/-- `GET /api/items` after `optionalAuth`: with `req.user`, all of that
user's items; without, `SELECT id, name, description, created_at FROM items
ORDER BY created_at DESC LIMIT 10` — note no `user_id` filter. -/
def getItems (db : DB) (reqUser : Option PubUser) : ItemsResult :=
  match reqUser with
  | some u => .userItems (sortItemsDesc (db.items.filter (fun it => it.user_id == some u.id)))
  | none => .publicItems (((sortItemsDesc db.items).take 10).map itemView)

/-- `SELECT * FROM items WHERE id = $1` (first matching row). -/
def findItem (db : DB) (iid : Nat) : Option Item :=
  db.items.find? (fun it => it.id == iid)

/-- Response of `GET /api/items/:id`. -/
inductive ItemReadResult where
  | notFound
  | forbidden
  | ok (item : Item)
  deriving DecidableEq, Repr

/-- `GET /api/items/:id` after `optionalAuth`: 404 when absent; 403 when
the item has an owner and the request carries no identity or a different
identity; the full row otherwise. -/
def getItemById (db : DB) (reqUser : Option PubUser) (iid : Nat) : ItemReadResult :=
  match findItem db iid with
  | none => .notFound
  | some item =>
    match item.user_id with
    | some owner =>
      match reqUser with
      | none => .forbidden
      | some u => if owner == u.id then .ok item else .forbidden
    | none => .ok item

/-- Body of `PUT /api/items/:id`: `some` marks a field present in the JSON
body (`!== undefined`). -/
structure PutBody where
  name : Option String
  description : Option String
  metadata : Option String
  deriving DecidableEq, Repr

/-- No field of the body was present (`updates.length === 0`). -/
def noUpdates (b : PutBody) : Bool :=
  b.name.isNone && b.description.isNone && b.metadata.isNone

/-- The dynamically built `UPDATE items SET ...` applied to one row. -/
def applyItemUpdate (b : PutBody) (now : Nat) (it : Item) : Item :=
  { it with
    name := b.name.getD it.name
    description := match b.description with | some d => some d | none => it.description
    metadata := b.metadata.getD it.metadata
    updated_at := now }

/-- Response of a mutating item route. -/
inductive MutResult where
  | err (status : Nat) (code : String)
  | okItem (item : Item)
  | okDeleted
  deriving DecidableEq, Repr

/-- `PUT /api/items/:id` after `authenticate` attached the user with id
`uid`: 404 when absent, 403 unless the stored `user_id` equals `uid`,
400 when no field is present, else the parameterized update. -/
def putItem (db : DB) (uid iid : Nat) (b : PutBody) (now : Nat) : MutResult × DB :=
  match findItem db iid with
  | none => (.err 404 "NOT_FOUND", db)
  | some item =>
    if item.user_id == some uid then
      if noUpdates b then (.err 400 "NO_UPDATES", db)
      else
        (.okItem (applyItemUpdate b now item),
          { db with items :=
              db.items.map (fun it => if it.id == iid then applyItemUpdate b now it else it) })
    else (.err 403 "FORBIDDEN", db)

/-- `DELETE /api/items/:id` after `authenticate`: 404 when absent, 403
unless the stored `user_id` equals `uid`, else the row is deleted (its
uploads cascade; the object-storage deletes are external best-effort
side effects with no database footprint). -/
def deleteItem (db : DB) (uid iid : Nat) : MutResult × DB :=
  match findItem db iid with
  | none => (.err 404 "NOT_FOUND", db)
  | some item =>
    if item.user_id == some uid then
      (.okDeleted,
        { db with items := db.items.filter (fun it => !(it.id == iid))
                  uploads := db.uploads.filter (fun up => !(up.item_id == iid)) })
    else (.err 403 "FORBIDDEN", db)

/-! ### C6 -/

/-- An item owned by user 3. -/
def exOwnedItem : Item := ⟨7, "x", none, some 3, "", 0, 0⟩

/-- A store whose only item is owned by user 3. -/
def exDBItems : DB := { users := [], sessions := [], items := [exOwnedItem], uploads := [] }

/-- C6 counterexample: the unauthenticated `GET /api/items` applies no
`user_id` filter, so an item with a non-null owner is disclosed (as its
id/name/description/created_at projection) to an unauthenticated caller. -/
theorem public_list_discloses_owned_item :
    getItems exDBItems none = .publicItems [itemView exOwnedItem] ∧
    exOwnedItem.user_id ≠ none :=
  ⟨rfl, by decide⟩

/-- C6 (amended): the unauthenticated single-item read discloses only items
whose `user_id` is null, and the unauthenticated list read returns at most
10 items — but the list read does not filter by `user_id`: it returns the
10 newest items' public projections regardless of owner. -/
theorem unauthenticated_read_bounds (db : DB) (iid : Nat) :
    (∀ vs, getItems db none = .publicItems vs → vs.length ≤ 10) ∧
    (∀ item, getItemById db none iid = .ok item → item.user_id = none) := by
  constructor
  · intro vs h
    simp only [getItems, ItemsResult.publicItems.injEq] at h
    rw [← h, List.length_map, List.length_take]
    exact min_le_left _ _
  · intro item h
    simp only [getItemById] at h
    split at h
    · exact absurd h (by simp)
    next item' hfind =>
      split at h
      next owner howner => exact absurd h (by simp)
      next howner =>
        injection h with h'
        rw [← h']
        exact howner

/-- C6 witness: the bound and the null-owner disclosure rule at a concrete
store. -/
theorem unauthenticated_read_bounds_witness :
    [itemView exOwnedItem].length ≤ 10 :=
  (unauthenticated_read_bounds exDBItems 7).1 [itemView exOwnedItem] rfl

/-! ### C7 -/

/-- C7: a user distinct from an item's owner gets 403 FORBIDDEN from both
`PUT` and `DELETE` on that item with the store left unchanged, cannot read
the item (403, since its `user_id` is non-null), while the owner still
fetches the untouched row. -/
theorem ownership_enforced
    (db : DB) (a b iid now : Nat) (item : Item) (body : PutBody) (pubA pubB : PubUser)
    (hfind : findItem db iid = some item)
    (howner : item.user_id = some b) (hne : a ≠ b)
    (ha : pubA.id = a) (hb : pubB.id = b) :
    putItem db a iid body now = (.err 403 "FORBIDDEN", db) ∧
    deleteItem db a iid = (.err 403 "FORBIDDEN", db) ∧
    getItemById db (some pubA) iid = .forbidden ∧
    getItemById db (some pubB) iid = .ok item := by
  have hba : b ≠ a := Ne.symm hne
  have hbeq : (item.user_id == some a) = false := by
    rw [howner]
    simpa using hba
  refine ⟨?_, ?_, ?_, ?_⟩
  · simp [putItem, hfind, hbeq]
  · simp [deleteItem, hfind, hbeq]
  · simp [getItemById, hfind, howner, ha, hba]
  · simp [getItemById, hfind, howner, hb]

/-- C7 witness: user 2 cannot update user 3's item; the store is untouched. -/
theorem ownership_enforced_witness :
    putItem exDBItems 2 7 ⟨none, none, none⟩ 0 = (.err 403 "FORBIDDEN", exDBItems) :=
  (ownership_enforced exDBItems 2 3 7 0 exOwnedItem ⟨none, none, none⟩
    ⟨2, "p@q.io", none, none, 0⟩ ⟨3, "o@q.io", none, none, 0⟩ rfl rfl (by decide) rfl rfl).1

/-! ### User routes -/

/-- JS falsiness of an optional string field of the request body
(`!x` holds for an absent field and for the empty string). -/
def isBlank : Option String → Bool
  | none => true
  | some s => s == ""

/-- Response of a user-account route. -/
inductive UserResult where
  | err (status : Nat) (code : String)
  | ok
  deriving DecidableEq, Repr

/-- `UPDATE users SET password_hash = $1 WHERE id = $2`. -/
def updatePasswordHash (db : DB) (uid : Nat) (newHash : String) : DB :=
  { db with users :=
      db.users.map (fun u => if u.id == uid then { u with password_hash := newHash } else u) }

/-- `PUT /api/users/me/password` after `authenticate` attached the user
with id `uid`. `compare` is bcrypt's comparison against a stored hash and
`newHash` the hash bcrypt produces for the new password — both external
collaborators. The source dereferences `rows[0]` unchecked, so a vanished
user row throws and is caught as a 500 PASSWORD_ERROR envelope. -/
def changePassword (compare : String → String → Bool) (newHash : String) (db : DB)
    (uid : Nat) (currentPw newPw : Option String) : UserResult × DB :=
  if isBlank currentPw || isBlank newPw then (.err 400 "MISSING_FIELDS", db)
  else if (newPw.getD "").length < 8 then (.err 400 "WEAK_PASSWORD", db)
  else
    match lookupUser db uid with
    | none => (.err 500 "PASSWORD_ERROR", db)
    | some u =>
      if compare (currentPw.getD "") u.password_hash then
        (.ok, updatePasswordHash db uid newHash)
      else (.err 401 "INVALID_PASSWORD", db)

/-- `DELETE FROM users WHERE id = $1` with the schema's `ON DELETE CASCADE`
to sessions, items and uploads (uploads cascade both from the user and from
the user's deleted items). -/
def deleteUserCascade (db : DB) (uid : Nat) : DB :=
  { db with
    users := db.users.filter (fun u => !(u.id == uid))
    sessions := db.sessions.filter (fun s => !(s.user_id == uid))
    items := db.items.filter (fun it => !(it.user_id == some uid))
    uploads := db.uploads.filter (fun up =>
      !(up.user_id == uid ||
        db.items.any (fun it => it.id == up.item_id && it.user_id == some uid))) }

/-- `DELETE /api/users/me` after `authenticate` attached the user with id
`uid`: requires the account password in the body. -/
def deleteAccount (compare : String → String → Bool) (db : DB) (uid : Nat)
    (password : Option String) : UserResult × DB :=
  if isBlank password then (.err 400 "MISSING_PASSWORD", db)
  else
    match lookupUser db uid with
    | none => (.err 500 "DELETE_ERROR", db)
    | some u =>
      if compare (password.getD "") u.password_hash then (.ok, deleteUserCascade db uid)
      else (.err 401 "INVALID_PASSWORD", db)

/-! ### C9 -/

/-- C9 counterexample: the WEAK_PASSWORD length check runs before the
current password is verified, so a request whose current password does not
match the stored hash is answered with 400, not 401, whenever the new
password is shorter than 8 characters. -/
theorem wrong_current_password_can_return_400 :
    changePassword (fun p h => p == h) "NH" exDB 1 (some "wrong") (some "short") =
      (.err 400 "WEAK_PASSWORD", exDB) ∧
    (fun p h => p == h) "wrong" exUser.password_hash = false ∧
    lookupUser exDB 1 = some exUser :=
  ⟨rfl, rfl, rfl⟩

/-- C9 (amended): provided both fields are present and the new password has
at least 8 characters, a current password that fails bcrypt verification
yields 401 INVALID_PASSWORD with the store unchanged; and in every case the
stored hash is replaced only when the current password verifies and the new
password passes the length check. -/
theorem change_password_guarded (compare : String → String → Bool) (newHash : String)
    (db : DB) (uid : Nat) (cur npw : Option String) :
    (∀ c n u, cur = some c → npw = some n → c ≠ "" → n ≠ "" → ¬n.length < 8 →
      lookupUser db uid = some u → compare c u.password_hash = false →
      changePassword compare newHash db uid cur npw = (.err 401 "INVALID_PASSWORD", db)) ∧
    ((changePassword compare newHash db uid cur npw).2 ≠ db →
      ∃ c n u, cur = some c ∧ npw = some n ∧ ¬n.length < 8 ∧
        lookupUser db uid = some u ∧ compare c u.password_hash = true ∧
        (changePassword compare newHash db uid cur npw).2 = updatePasswordHash db uid newHash) := by
  constructor
  · rintro c n u rfl rfl hc hn hlen hu hwrong
    simp [changePassword, isBlank, hc, hn, hlen, hu, hwrong]
  · intro hne
    rcases hcur : cur with _ | c
    · exact absurd (by simp [changePassword, isBlank, hcur]) hne
    rcases hnpw : npw with _ | n
    · exact absurd (by simp [changePassword, isBlank, hnpw]) hne
    by_cases hc : c = ""
    · exact absurd (by simp [changePassword, isBlank, hcur, hc]) hne
    by_cases hn : n = ""
    · exact absurd (by simp [changePassword, isBlank, hcur, hnpw, hn]) hne
    by_cases hlen : n.length < 8
    · exact absurd (by simp [changePassword, isBlank, hcur, hnpw, hc, hn, hlen]) hne
    rcases hu : lookupUser db uid with _ | u
    · exact absurd (by simp [changePassword, isBlank, hcur, hnpw, hc, hn, hlen, hu]) hne
    by_cases hcmp : compare c u.password_hash = true
    · exact ⟨c, n, u, rfl, rfl, hlen, rfl, hcmp,
        by simp [changePassword, isBlank, hc, hn, hlen, hu, hcmp]⟩
    · rw [Bool.not_eq_true] at hcmp
      exact absurd (by simp [changePassword, isBlank, hcur, hnpw, hc, hn, hlen, hu, hcmp]) hne

/-! ### C10 -/

theorem lookupUser_deleteUserCascade (db : DB) (uid : Nat) :
    lookupUser (deleteUserCascade db uid) uid = none := by
  rw [lookupUser, List.find?_eq_none]
  intro u hu
  rw [deleteUserCascade] at hu
  simp only [List.mem_filter, Bool.not_eq_true', beq_eq_false_iff_ne, ne_eq] at hu
  simpa using hu.2

/-- C10: account deletion requires the account password beyond the
validated session: a missing (or empty, which JS treats as missing) body
password yields 400 MISSING_PASSWORD with the store unchanged; a password
failing bcrypt verification yields 401 INVALID_PASSWORD with the store
unchanged; and the store changes only when the supplied password verifies
against the stored hash, in which case the user row (with its cascading
sessions, items and uploads) is removed. -/
theorem delete_account_guarded (compare : String → String → Bool) (db : DB) (uid : Nat)
    (password : Option String) :
    (isBlank password = true →
      deleteAccount compare db uid password = (.err 400 "MISSING_PASSWORD", db)) ∧
    (∀ p u, password = some p → p ≠ "" → lookupUser db uid = some u →
      compare p u.password_hash = false →
      deleteAccount compare db uid password = (.err 401 "INVALID_PASSWORD", db)) ∧
    ((deleteAccount compare db uid password).2 ≠ db →
      ∃ p u, password = some p ∧ lookupUser db uid = some u ∧
        compare p u.password_hash = true ∧
        (deleteAccount compare db uid password).2 = deleteUserCascade db uid ∧
        lookupUser ((deleteAccount compare db uid password).2) uid = none) := by
  refine ⟨?_, ?_, ?_⟩
  · intro hblank
    simp [deleteAccount, hblank]
  · rintro p u rfl hp hu hwrong
    simp [deleteAccount, isBlank, hp, hu, hwrong]
  · intro hne
    rcases hpw : password with _ | p
    · exact absurd (by simp [deleteAccount, isBlank, hpw]) hne
    by_cases hp : p = ""
    · exact absurd (by simp [deleteAccount, isBlank, hpw, hp]) hne
    rcases hu : lookupUser db uid with _ | u
    · exact absurd (by simp [deleteAccount, isBlank, hpw, hp, hu]) hne
    by_cases hcmp : compare p u.password_hash = true
    · have hdel : (deleteAccount compare db uid (some p)).2 = deleteUserCascade db uid := by
        simp [deleteAccount, isBlank, hp, hu, hcmp]
      refine ⟨p, u, rfl, rfl, hcmp, hdel, ?_⟩
      rw [hdel]
      exact lookupUser_deleteUserCascade db uid
    · rw [Bool.not_eq_true] at hcmp
      exact absurd (by simp [deleteAccount, isBlank, hpw, hp, hu, hcmp]) hne

/-! ### C8: injectivity of the jti encoding

`genJti uid ms` is the decimal rendering of `uid`, a dash, and the decimal
rendering of `ms`. The lemmas below show that decimal rendering (`Nat.repr`
via `Nat.toDigitsCore`) is dash-free and decodable, hence the whole `jti`
determines the pair `(uid, ms)` — and nothing finer: two issuances for the
same user in the same millisecond share a `jti`. -/

/-- Numeric value of a decimal digit character. -/
def charVal (c : Char) : Nat := c.toNat - 48

/-- Value of a most-significant-first decimal digit list. -/
def valMSB (l : List Char) : Nat := l.foldl (fun acc c => acc * 10 + charVal c) 0

theorem digit_props (d : Nat) (h : d < 10) :
    Nat.digitChar d ≠ '-' ∧ charVal (Nat.digitChar d) = d := by
  interval_cases d <;> exact ⟨by decide, by decide⟩

theorem valMSB_append_singleton (l : List Char) (c : Char) :
    valMSB (l ++ [c]) = valMSB l * 10 + charVal c := by
  simp [valMSB, List.foldl_append]

theorem toDigitsCore_spec :
    ∀ n : Nat, ∀ fuel ds, n < fuel →
      ∃ l, Nat.toDigitsCore 10 fuel n ds = l ++ ds ∧ l ≠ [] ∧
        (∀ c ∈ l, c ≠ '-') ∧ valMSB l = n := by
  intro n
  induction n using Nat.strong_induction_on with
  | _ n ih =>
    intro fuel ds hfuel
    match fuel with
    | 0 => omega
    | f + 1 =>
      by_cases hdiv : n / 10 = 0
      · refine ⟨[Nat.digitChar (n % 10)], ?_, by simp, ?_, ?_⟩
        · simp [Nat.toDigitsCore, hdiv]
        · intro c hc
          rw [List.mem_singleton] at hc
          rw [hc]
          exact (digit_props (n % 10) (by omega)).1
        · have hlt : n < 10 := by omega
          simp only [valMSB, List.foldl_cons, List.foldl_nil, Nat.zero_mul, Nat.zero_add]
          rw [(digit_props (n % 10) (by omega)).2]
          omega
      · have hn : 0 < n := by omega
        have hrec : n / 10 < n := Nat.div_lt_self hn (by omega)
        have hf : n / 10 < f := by omega
        obtain ⟨l, hl, hne, hd, hv⟩ := ih (n / 10) hrec f (Nat.digitChar (n % 10) :: ds) hf
        refine ⟨l ++ [Nat.digitChar (n % 10)], ?_, by simp, ?_, ?_⟩
        · simp only [Nat.toDigitsCore, hdiv, if_false]
          rw [hl, List.append_assoc]
          rfl
        · intro c hc
          rcases List.mem_append.mp hc with h | h
          · exact hd c h
          · rw [List.mem_singleton] at h
            rw [h]
            exact (digit_props (n % 10) (by omega)).1
        · rw [valMSB_append_singleton, hv, (digit_props (n % 10) (by omega)).2]
          omega

theorem toDigits_spec (n : Nat) :
    (∀ c ∈ Nat.toDigits 10 n, c ≠ '-') ∧ valMSB (Nat.toDigits 10 n) = n := by
  obtain ⟨l, hl, -, hd, hv⟩ := toDigitsCore_spec n (n + 1) [] (Nat.lt_succ_self n)
  rw [show Nat.toDigits 10 n = Nat.toDigitsCore 10 (n + 1) n [] from rfl, hl, List.append_nil]
  exact ⟨hd, hv⟩

theorem toString_nat_data (n : Nat) : (toString n).data = Nat.toDigits 10 n := rfl

theorem string_data_append (a b : String) : (a ++ b).data = a.data ++ b.data := rfl

theorem append_dash_inj (l1 : List Char) :
    ∀ l2 r1 r2 : List Char, '-' ∉ l1 → '-' ∉ l2 →
      l1 ++ '-' :: r1 = l2 ++ '-' :: r2 → l1 = l2 ∧ r1 = r2 := by
  induction l1 with
  | nil =>
    intro l2 r1 r2 h1 h2 h
    cases l2 with
    | nil =>
      rw [List.nil_append, List.nil_append] at h
      exact ⟨rfl, by injection h⟩
    | cons b bs =>
      rw [List.nil_append, List.cons_append] at h
      injection h with hb _
      rw [← hb] at h2
      exact absurd (List.mem_cons_self _ _) h2
  | cons a as ihp =>
    intro l2 r1 r2 h1 h2 h
    cases l2 with
    | nil =>
      rw [List.nil_append, List.cons_append] at h
      injection h with ha _
      rw [ha] at h1
      exact absurd (List.mem_cons_self _ _) h1
    | cons b bs =>
      rw [List.cons_append, List.cons_append] at h
      injection h with hab h'
      have h1' : '-' ∉ as := fun hm => h1 (List.mem_cons_of_mem a hm)
      have h2' : '-' ∉ bs := fun hm => h2 (List.mem_cons_of_mem b hm)
      obtain ⟨he, hr⟩ := ihp bs r1 r2 h1' h2' h'
      exact ⟨by rw [hab, he], hr⟩

theorem genJti_inj (u1 t1 u2 t2 : Nat) :
    genJti u1 t1 = genJti u2 t2 ↔ u1 = u2 ∧ t1 = t2 := by
  constructor
  · intro h
    have hdata := congrArg String.data h
    simp only [genJti, string_data_append, toString_nat_data] at hdata
    rw [List.append_assoc, List.append_assoc, List.singleton_append,
      List.singleton_append] at hdata
    obtain ⟨hu, ht⟩ := append_dash_inj (Nat.toDigits 10 u1) (Nat.toDigits 10 u2)
      (Nat.toDigits 10 t1) (Nat.toDigits 10 t2)
      (fun hm => (toDigits_spec u1).1 '-' hm rfl)
      (fun hm => (toDigits_spec u2).1 '-' hm rfl) hdata
    constructor
    · have hval := congrArg valMSB hu
      rw [(toDigits_spec u1).2, (toDigits_spec u2).2] at hval
      exact hval
    · have hval := congrArg valMSB ht
      rw [(toDigits_spec t1).2, (toDigits_spec t2).2] at hval
      exact hval
  · rintro ⟨rfl, rfl⟩
    rfl

/-- C8 counterexample: two issuances for the same user in the same
millisecond generate the same `jti`; the second one collides with the
first issuance's still-live session row. -/
theorem jti_collision_same_millisecond :
    (issueToken "s" exDB 1 "a@b.com" 5).1.claims.jti =
      (issueToken "s" (issueToken "s" exDB 1 "a@b.com" 5).2 1 "a@b.com" 5).1.claims.jti ∧
    hasLiveSession (issueToken "s" exDB 1 "a@b.com" 5).2 5
      (issueToken "s" (issueToken "s" exDB 1 "a@b.com" 5).2 1 "a@b.com" 5).1.claims.jti =
      true :=
  ⟨rfl, rfl⟩

/-- C8 (amended): the `jti` generated for an issuance is the string
`uid-ms`; two issuances receive equal `jti`s iff they are for the same
user id in the same millisecond. Uniqueness across issuances (and absence
of collision with any still-live session row) therefore holds exactly when
no two issuances for the same user share a millisecond timestamp. -/
theorem token_id_unique_iff (s1 s2 e1 e2 : String) (u1 t1 u2 t2 : Nat) :
    (generateToken s1 u1 e1 t1).claims.jti = (generateToken s2 u2 e2 t2).claims.jti ↔
      u1 = u2 ∧ t1 = t2 := by
  simpa [generateToken] using genJti_inj u1 t1 u2 t2

end DoApp
